import Mathlib

/-!
Verification of the SmartMeal recipe service.

This file gives a shallow embedding, in Lean 4, of the recipe data/query
layer and the AI-generation warning pipeline of the SmartMeal repository
(`src/lib/services/recipe.service.ts`, `src/lib/services/ai.service.ts`,
`src/lib/validation/recipe.validation.ts`), together with theorems about
the embedded operations.

The service files contain two revisions separated in the sources: an
earlier Supabase-backed revision and the current mock in-memory revision
that operates on a module-level array `MOCK_RECIPES` and a counter
`mockRecipeCounter`.  The in-memory revision is the one embedded here:
the mutable array becomes an explicit `List RecipeDTO` threaded through
every operation, the counter becomes an explicit `Nat`, and each wall
clock read (`new Date().toISOString()`) performed during one request is
modelled by a single `now : String` parameter (timestamps are ISO-8601
strings in the source and remain strings here, ordered lexicographically
exactly as the source's string timestamps are).

JavaScript string primitives used by the source (`String.prototype.trim`,
`slice`, `includes`, `toLowerCase`, the regex class `[^\w\s,.-]`) are
embedded as executable functions on `List Char` below; `toLowerCase` is
modelled by ASCII case folding, and `localeCompare` by code-point
lexicographic comparison.
-/

/-- Embedding of `String.prototype.toLowerCase` (ASCII case folding),
written over the character list so that it reduces by computation. -/
def jsToLower (s : String) : String :=
  String.mk (s.data.map Char.toLower)

/-- Substring test on character lists: `charsInclude needle hay` is true iff
`needle` occurs contiguously inside `hay`.  This is the embedding of
JavaScript's `hay.includes(needle)`. -/
def charsInclude (needle : List Char) : List Char → Bool
  | [] => needle.isEmpty
  | c :: rest => needle.isPrefixOf (c :: rest) || charsInclude needle rest

/-- Embedding of `s.includes(pattern)` on strings. -/
def strIncludes (s pattern : String) : Bool :=
  charsInclude pattern.data s.data

/-- White-space class used both by `String.prototype.trim` and by the `\s`
regex class (restricted to the ASCII range plus NBSP, the only code points
the repository's data exercises). -/
def isJsWhitespace (c : Char) : Bool :=
  c = ' ' || c = '\t' || c = '\n' || c = '\r' || c = '\x0b' || c = '\x0c' || c = ' '

/-- Embedding of `String.prototype.trim`: strip leading and trailing
white space. -/
def jsTrim (s : String) : String :=
  String.mk (((s.data.dropWhile isJsWhitespace).reverse.dropWhile isJsWhitespace).reverse)

/-- Regex class `\w`: ASCII letters, digits and underscore. -/
def isWordChar (c : Char) : Bool :=
  c.isAlpha || c.isDigit || c = '_'

/-- The sanitiser's character allow-list: the complement of the regex
`[^\w\s,.-]` used in `AIService.sanitizeIngredients`. -/
def isAllowedChar (c : Char) : Bool :=
  isWordChar c || isJsWhitespace c || c = ',' || c = '.' || c = '-'

/-- Body of the `map` in `AIService.sanitizeIngredients`
(`ai.service.ts`): `ingredient.trim().slice(0, 100).replace(/[^\w\s,.-]/g, "")`
— trim, then truncate to 100 characters, then strip disallowed characters. -/
def sanitizeOne (ingredient : String) : String :=
  String.mk (((jsTrim ingredient).data.take 100).filter isAllowedChar)

/-- Embedding of `AIService.sanitizeIngredients` (`ai.service.ts`): an
element-wise map of `sanitizeOne` over the input list. -/
def sanitizeIngredients (ingredients : List String) : List String :=
  ingredients.map sanitizeOne

/-- Recipe source tag, the `recipe_source` enum: `ai` or `manual`. -/
inductive RecipeSource
  | ai
  | manual
deriving DecidableEq, Repr

/-- Sort order accepted by the list endpoint: `asc` or `desc`. -/
inductive SortOrder
  | asc
  | desc
deriving DecidableEq, Repr

/-- Embedding of the `RecipeDTO` type (`types.ts`): a persisted recipe row.
Timestamps are the source's ISO-8601 strings. -/
structure RecipeDTO where
  id : String
  user_id : String
  title : String
  ingredients : List String
  preparation_steps : List String
  source : RecipeSource
  created_at : String
  updated_at : String
deriving DecidableEq, Repr

/-- Embedding of `ProfileDTO` (`types.ts`, `profiles` table): only the
fields the recipe pipeline reads.  `ingredients_to_avoid` is nullable in
the row type, hence the `Option`. -/
structure ProfileDTO where
  user_id : String
  ingredients_to_avoid : Option (List String)
deriving DecidableEq, Repr

/-- Embedding of `GeneratedRecipeDTO` (`types.ts`): a draft recipe from the
generation adapter, no identity, owner or timestamps. -/
structure GeneratedRecipeDTO where
  title : String
  ingredients : List String
  preparation_steps : List String
deriving DecidableEq, Repr

/-- Embedding of `IngredientWarning` (`types.ts`).  The `type` field is the
literal string tag `"ingredient_to_avoid"`. -/
structure IngredientWarning where
  type : String
  message : String
  ingredient : String
deriving DecidableEq, Repr

/-- Embedding of `GenerateRecipeResponseDTO` (`types.ts`). -/
structure GenerateRecipeResponseDTO where
  recipe : GeneratedRecipeDTO
  warnings : List IngredientWarning
deriving DecidableEq, Repr

/-- Embedding of `CreateRecipeCommand` (`types.ts`). -/
structure CreateRecipeCommand where
  title : String
  ingredients : List String
  preparation_steps : List String
  source : RecipeSource
deriving DecidableEq, Repr

/-- Embedding of `UpdateRecipeCommand` (`types.ts`): all three mutable
fields optional (`undefined` becomes `none`). -/
structure UpdateRecipeCommand where
  title : Option String
  ingredients : Option (List String)
  preparation_steps : Option (List String)
deriving DecidableEq, Repr

/-- Embedding of `RecipeQueryParams` (`types.ts`): every field optional,
defaults are applied inside `getRecipes` by destructuring. -/
structure RecipeQueryParams where
  page : Option Nat
  limit : Option Nat
  sort : Option String
  order : Option SortOrder
  source : Option RecipeSource
deriving DecidableEq, Repr

/-- Embedding of `PaginationDTO` (`types.ts`). -/
structure PaginationDTO where
  page : Nat
  limit : Nat
  total_items : Nat
  total_pages : Nat
  has_next : Bool
  has_previous : Bool
deriving DecidableEq, Repr

/-- Embedding of `RecipeListResponseDTO` (`types.ts`). -/
structure RecipeListResponseDTO where
  recipes : List RecipeDTO
  pagination : PaginationDTO
deriving DecidableEq, Repr

/-- Mock draft keyed `default` in `AIService.MOCK_RECIPES` (`ai.service.ts`). -/
def aiMockDefault : GeneratedRecipeDTO :=
  { title := "Delicious Mixed Recipe"
  , ingredients :=
      [ "2 cups main ingredient"
      , "1 cup secondary ingredient"
      , "3 tablespoons seasoning"
      , "Salt and pepper to taste" ]
  , preparation_steps :=
      [ "Prepare all ingredients by washing and chopping as needed"
      , "Heat a large pan over medium heat"
      , "Add the main ingredients and cook for 5-7 minutes"
      , "Add secondary ingredients and seasonings"
      , "Cook until everything is well combined and heated through"
      , "Season with salt and pepper to taste"
      , "Serve hot and enjoy!" ] }

/-- Mock draft keyed `chicken_rice` in `AIService.MOCK_RECIPES`. -/
def aiMockChickenRice : GeneratedRecipeDTO :=
  { title := "Garlic Chicken with Broccoli Rice"
  , ingredients :=
      [ "2 chicken breasts, diced"
      , "2 cups cooked rice"
      , "1 cup broccoli florets"
      , "3 cloves garlic, minced"
      , "2 tablespoons olive oil"
      , "Salt and pepper to taste" ]
  , preparation_steps :=
      [ "Heat olive oil in a large pan over medium heat"
      , "Add minced garlic and cook until fragrant (about 1 minute)"
      , "Add diced chicken and cook until golden brown (8-10 minutes)"
      , "Add broccoli florets and cook for 5 minutes until tender"
      , "Mix in cooked rice and stir well to combine"
      , "Season with salt and pepper to taste"
      , "Serve hot and garnish with fresh herbs if desired" ] }

/-- Mock draft keyed `pasta` in `AIService.MOCK_RECIPES`. -/
def aiMockPasta : GeneratedRecipeDTO :=
  { title := "Creamy Tomato Pasta"
  , ingredients :=
      [ "500g pasta of choice"
      , "2 cups tomato sauce"
      , "1 cup heavy cream"
      , "3 cloves garlic, minced"
      , "Fresh basil leaves"
      , "Parmesan cheese for serving" ]
  , preparation_steps :=
      [ "Boil pasta according to package instructions until al dente"
      , "While pasta cooks, sauté garlic in a large pan"
      , "Add tomato sauce and simmer for 5 minutes"
      , "Stir in heavy cream and cook for 2-3 minutes"
      , "Drain pasta and add to the sauce"
      , "Toss everything together until well coated"
      , "Serve with fresh basil and parmesan cheese" ] }

/-- Embedding of `AIService.generateRecipe` (`ai.service.ts`): joins the
ingredient list with spaces, lowercases it, and selects a mock draft by
substring dispatch; otherwise returns the default draft with a dynamic
title.  For an empty input list the source interpolates `undefined` into
the title (`ingredients[0]` is `undefined`), modelled by `headD`. -/
def AIService.generateRecipe (ingredients : List String) : GeneratedRecipeDTO :=
  let ingredientString := jsToLower (String.intercalate " " ingredients)
  if strIncludes ingredientString "chicken" && strIncludes ingredientString "rice" then
    aiMockChickenRice
  else if strIncludes ingredientString "pasta" then
    aiMockPasta
  else
    { aiMockDefault with title := "Delicious " ++ ingredients.headD "undefined" ++ " Recipe" }

/-- Warning record pushed by `checkIngredientsAgainstProfile` for a matched
avoided term (already lowercased by the caller). -/
def mkAvoidWarning (avoidIngredient : String) : IngredientWarning :=
  { type := "ingredient_to_avoid"
  , message := "This recipe contains \x27" ++ avoidIngredient ++
      "\x27 which is in your ingredients to avoid list"
  , ingredient := avoidIngredient }

/-- Inner `for` loop of `checkIngredientsAgainstProfile` over the
lowercased avoidance list: returns the warning for the first avoided term
contained in `ingredientLower`, mirroring the `break` after the first
match, or `none` when no term matches. -/
def firstAvoidWarning (ingredientLower : String) : List String → Option IngredientWarning
  | [] => none
  | avoidIngredient :: rest =>
    if strIncludes ingredientLower avoidIngredient then
      some (mkAvoidWarning avoidIngredient)
    else
      firstAvoidWarning ingredientLower rest

/-- Outer `for` loop of `checkIngredientsAgainstProfile` over the recipe
ingredient lines, pushing at most one warning per line. -/
def checkIngredientsLoop (ingredientsToAvoid : List String) : List String → List IngredientWarning
  | [] => []
  | ingredient :: rest =>
    match firstAvoidWarning (jsToLower ingredient) ingredientsToAvoid with
    | some w => w :: checkIngredientsLoop ingredientsToAvoid rest
    | none => checkIngredientsLoop ingredientsToAvoid rest

/-- Embedding of `RecipeService.checkIngredientsAgainstProfile`
(`recipe.service.ts`): early return `[]` for a missing or empty avoidance
list, otherwise the double loop over lines and lowercased avoided terms. -/
def checkIngredientsAgainstProfile (recipeIngredients : List String) (profile : ProfileDTO) :
    List IngredientWarning :=
  match profile.ingredients_to_avoid with
  | none => []
  | some avoid =>
    if avoid.length = 0 then []
    else checkIngredientsLoop (avoid.map jsToLower) recipeIngredients

/-- Embedding of `RecipeService.generateRecipeWithWarnings`
(`recipe.service.ts`): sanitise the ingredients, dispatch the sanitised
list to the generation service, then compute warnings from the caller's
profile (`none` when no profile row exists; the mock revision always takes
the `none` branch, the Supabase revision fetches the profile). -/
def generateRecipeWithWarnings (ingredients : List String) (profile : Option ProfileDTO) :
    GenerateRecipeResponseDTO :=
  let sanitizedIngredients := sanitizeIngredients ingredients
  let recipe := AIService.generateRecipe sanitizedIngredients
  let warnings :=
    match profile with
    | some p => checkIngredientsAgainstProfile recipe.ingredients p
    | none => []
  { recipe := recipe, warnings := warnings }


/-- Predicate used by every id-scoped repository operation in
`recipe.service.ts`: `(r) => r.id === id && r.user_id === userId`. -/
def recipeMatches (id userId : String) (r : RecipeDTO) : Bool :=
  r.id == id && r.user_id == userId

/-- Identifier generated by the mock `createRecipe`
(`recipe.service.ts`): the fixed UUID stem with the current value of
`mockRecipeCounter` interpolated at the end. -/
def mockIdOfCounter (counter : Nat) : String :=
  "550e8400-e29b-41d4-a716-44665544000" ++ toString counter

/-- Embedding of `RecipeService.createRecipe` (mock revision,
`recipe.service.ts`): build the new row from the command, the requesting
user and the request's clock reading, push it at the end of the store and
bump the counter.  Returns the new row, the new store and the new counter. -/
def createRecipe (state : List RecipeDTO) (counter : Nat) (command : CreateRecipeCommand)
    (userId : String) (now : String) : RecipeDTO × List RecipeDTO × Nat :=
  let newRecipe : RecipeDTO :=
    { id := mockIdOfCounter counter
    , user_id := userId
    , title := command.title
    , ingredients := command.ingredients
    , preparation_steps := command.preparation_steps
    , source := command.source
    , created_at := now
    , updated_at := now }
  (newRecipe, state ++ [newRecipe], counter + 1)

/-- Embedding of `RecipeService.getRecipeById` (mock revision):
`MOCK_RECIPES.find((r) => r.id === id && r.user_id === userId) || null`. -/
def getRecipeById (state : List RecipeDTO) (id userId : String) : Option RecipeDTO :=
  state.find? (recipeMatches id userId)

/-- Embedding of `RecipeService.updateRecipe` (mock revision): locate the
row by id and owner (`findIndex`, `-1` when absent, modelled by the bounds
test on `List.findIdx`), overwrite exactly the fields present in the
command, stamp `updated_at` with the request's clock reading, and store
the merged row back at the same index.  Returns the merged row and the new
store, or `none` and the unchanged store. -/
def updateRecipe (state : List RecipeDTO) (id userId : String) (command : UpdateRecipeCommand)
    (now : String) : Option RecipeDTO × List RecipeDTO :=
  let recipeIndex := state.findIdx (recipeMatches id userId)
  if h : recipeIndex < state.length then
    let old := state.get ⟨recipeIndex, h⟩
    let updatedRecipe : RecipeDTO :=
      { old with
        title := command.title.getD old.title
      , ingredients := command.ingredients.getD old.ingredients
      , preparation_steps := command.preparation_steps.getD old.preparation_steps
      , updated_at := now }
    (some updatedRecipe, state.set recipeIndex updatedRecipe)
  else
    (none, state)

/-- Embedding of `RecipeService.deleteRecipe` (mock revision): locate the
row by id and owner, splice it out when found.  Returns whether a row was
removed, together with the new store. -/
def deleteRecipe (state : List RecipeDTO) (id userId : String) : Bool × List RecipeDTO :=
  let recipeIndex := state.findIdx (recipeMatches id userId)
  if recipeIndex < state.length then
    (true, state.eraseIdx recipeIndex)
  else
    (false, state)

/-- Dynamic field access `a[sort as keyof RecipeDTO]` restricted to the
string-valued columns: array-valued fields (and unknown field names) are
not strings at runtime, and the comparator returns `0` for them. -/
def sortKey (r : RecipeDTO) (field : String) : Option String :=
  if field == "id" then some r.id
  else if field == "user_id" then some r.user_id
  else if field == "title" then some r.title
  else if field == "created_at" then some r.created_at
  else if field == "updated_at" then some r.updated_at
  else none

/-- Code-point lexicographic "strictly less" on character lists, the
order underlying the model of `localeCompare`. -/
def charListLt : List Char → List Char → Bool
  | [], [] => false
  | [], _ :: _ => true
  | _ :: _, [] => false
  | a :: as, b :: bs => a < b || (a == b && charListLt as bs)

/-- Code-point "less or equal" on strings, the non-strict companion of
`charListLt`. -/
def jsStrLE (x y : String) : Bool :=
  !(charListLt y.data x.data)

/-- Code-point "strictly less" on strings, the model of the JavaScript
`<` comparison on strings (used here to order ISO-8601 timestamps). -/
def jsStrLT (x y : String) : Bool :=
  charListLt x.data y.data

/-- The `sort` comparator of `getRecipes` as a boolean "a may come before
b" relation for a stable sort: when both sort keys are strings the order
follows `localeCompare` (modelled by code-point comparison) in the
requested direction, otherwise the comparator yields `0` and the pair is
left in input order. -/
def recipeLE (field : String) (order : SortOrder) (a b : RecipeDTO) : Bool :=
  match sortKey a field, sortKey b field with
  | some x, some y =>
    match order with
    | SortOrder.asc => jsStrLE x y
    | SortOrder.desc => jsStrLE y x
  | _, _ => true

/-- Insertion of an element into a sorted list, placing it before the
first element it may precede: the auxiliary step of `sortBy`. -/
def insertSorted (le : α → α → Bool) (x : α) : List α → List α
  | [] => [x]
  | y :: ys => if le x y then x :: y :: ys else y :: insertSorted le x ys

/-- Stable comparator sort (insertion sort): the embedding of
`Array.prototype.sort(comparator)`, which the ECMAScript specification
requires to be stable.  Equal elements keep their input order because an
element is inserted before the sorted elements it compares equal to,
which all originate later in the input. -/
def sortBy (le : α → α → Bool) : List α → List α
  | [] => []
  | x :: xs => insertSorted le x (sortBy le xs)

/-- Embedding of `RecipeService.getRecipes` (mock revision): apply the
destructuring defaults, filter by owner, then optionally by source, sort a
copy of the store (JavaScript `Array.prototype.sort` is stable, modelled
by the stable `sortBy`), slice the requested page and assemble the
pagination metadata.  `Math.ceil(totalItems / limit)` on naturals is
`(totalItems + limit - 1) / limit`; validated inputs make `page` and
`limit` positive, so the natural subtractions are exact. -/
def getRecipes (state : List RecipeDTO) (userId : String) (params : RecipeQueryParams) :
    RecipeListResponseDTO :=
  let page := params.page.getD 1
  let limit := params.limit.getD 20
  let sort := params.sort.getD "created_at"
  let order := params.order.getD SortOrder.desc
  let byUser : List RecipeDTO := state.filter (fun r => r.user_id == userId)
  let filteredRecipes : List RecipeDTO :=
    match params.source with
    | some s => byUser.filter (fun r => r.source == s)
    | none => byUser
  let sorted := sortBy (recipeLE sort order) filteredRecipes
  let offset := (page - 1) * limit
  let paginatedRecipes := (sorted.drop offset).take limit
  let totalItems := filteredRecipes.length
  let totalPages := (totalItems + limit - 1) / limit
  { recipes := paginatedRecipes
  , pagination :=
    { page := page
    , limit := limit
    , total_items := totalItems
    , total_pages := totalPages
    , has_next := decide (page < totalPages)
    , has_previous := decide (1 < page) } }

/-- Raw, pre-validation query parameters for the list endpoint, as they
arrive at `recipeQuerySchema`: numbers already coerced (the zod
`z.coerce.number().int()` step — non-integral and non-numeric inputs are
out of scope of this embedding), everything optional. -/
structure RawRecipeQuery where
  page : Option Int
  limit : Option Int
  sort : Option String
  order : Option String
  source : Option String
deriving DecidableEq, Repr

/-- Embedding of `recipeQuerySchema` (`recipe.validation.ts`):
`page` positive with default 1; `limit` positive, at most 100, default
20; `sort` any string, default `created_at`; `order` in the enum
`asc`/`desc`, default `desc`; `source` in the enum `ai`/`manual`,
optional.  A violated check is a validation error, never a clamp. -/
def recipeQuerySchema (q : RawRecipeQuery) : Except String RecipeQueryParams := do
  let page ←
    match q.page with
    | none => pure (1 : Nat)
    | some n =>
      if 0 < n then pure n.toNat
      else Except.error "page must be a positive integer"
  let limit ←
    match q.limit with
    | none => pure (20 : Nat)
    | some n =>
      if 0 < n then
        if n ≤ 100 then pure n.toNat
        else Except.error "limit must be at most 100"
      else Except.error "limit must be a positive integer"
  let sort := q.sort.getD "created_at"
  let order ←
    match q.order with
    | none => pure SortOrder.desc
    | some s =>
      if s == "asc" then pure SortOrder.asc
      else if s == "desc" then pure SortOrder.desc
      else Except.error "order must be asc or desc"
  let source ←
    match q.source with
    | none => pure (none : Option RecipeSource)
    | some s =>
      if s == "ai" then pure (some RecipeSource.ai)
      else if s == "manual" then pure (some RecipeSource.manual)
      else Except.error "source must be ai or manual"
  pure
    { page := some page
    , limit := some limit
    , sort := some sort
    , order := some order
    , source := source }

/-- The development user id (`supabase.client.ts`); all seeded mock rows
belong to it. -/
def DEFAULT_USER_ID : String := "default-user-id"

/-- The three rows seeding `RecipeService.MOCK_RECIPES` in the mock
revision of `recipe.service.ts` (ingredient and step texts elided to
their titles are NOT elided — the full literals are reproduced). -/
def seededRecipe1 : RecipeDTO :=
  { id := "550e8400-e29b-41d4-a716-446655440001"
  , user_id := DEFAULT_USER_ID
  , title := "Classic Spaghetti Carbonara"
  , ingredients :=
      [ "400g spaghetti"
      , "200g pancetta or guanciale"
      , "4 large eggs"
      , "100g Pecorino Romano cheese, grated"
      , "Black pepper to taste"
      , "Salt for pasta water" ]
  , preparation_steps :=
      [ "Bring a large pot of salted water to boil and cook spaghetti according to package directions"
      , "While pasta cooks, cut pancetta into small cubes and fry in a large pan until crispy"
      , "In a bowl, whisk together eggs and grated Pecorino Romano cheese"
      , "Reserve 1 cup of pasta water, then drain the spaghetti"
      , "Remove pan from heat and add hot pasta to the pancetta"
      , "Quickly mix in the egg mixture, adding pasta water as needed to create a creamy sauce"
      , "Season generously with black pepper and serve immediately" ]
  , source := RecipeSource.ai
  , created_at := "2024-10-01T10:00:00Z"
  , updated_at := "2024-10-01T10:00:00Z" }

/-- Second seeded mock row. -/
def seededRecipe2 : RecipeDTO :=
  { id := "550e8400-e29b-41d4-a716-446655440002"
  , user_id := DEFAULT_USER_ID
  , title := "Grilled Chicken Salad"
  , ingredients :=
      [ "2 chicken breasts"
      , "Mixed salad greens (200g)"
      , "1 cucumber, sliced"
      , "2 tomatoes, diced"
      , "1/4 red onion, thinly sliced"
      , "Olive oil"
      , "Lemon juice"
      , "Salt and pepper" ]
  , preparation_steps :=
      [ "Season chicken breasts with salt, pepper, and olive oil"
      , "Grill chicken for 6-7 minutes per side until fully cooked"
      , "Let chicken rest for 5 minutes, then slice into strips"
      , "In a large bowl, combine salad greens, cucumber, tomatoes, and red onion"
      , "Top with sliced chicken"
      , "Drizzle with olive oil and lemon juice"
      , "Toss gently and serve immediately" ]
  , source := RecipeSource.manual
  , created_at := "2024-10-05T14:30:00Z"
  , updated_at := "2024-10-05T14:30:00Z" }

/-- Third seeded mock row. -/
def seededRecipe3 : RecipeDTO :=
  { id := "550e8400-e29b-41d4-a716-446655440003"
  , user_id := DEFAULT_USER_ID
  , title := "Vegetable Stir Fry"
  , ingredients :=
      [ "2 cups broccoli florets"
      , "1 red bell pepper, sliced"
      , "1 yellow bell pepper, sliced"
      , "1 cup snap peas"
      , "2 carrots, julienned"
      , "3 tablespoons soy sauce"
      , "2 tablespoons sesame oil"
      , "2 cloves garlic, minced"
      , "1 tablespoon ginger, minced"
      , "Sesame seeds for garnish" ]
  , preparation_steps :=
      [ "Heat sesame oil in a large wok or skillet over high heat"
      , "Add garlic and ginger, stir fry for 30 seconds until fragrant"
      , "Add carrots and broccoli, stir fry for 3 minutes"
      , "Add bell peppers and snap peas, continue stir frying for 2-3 minutes"
      , "Pour in soy sauce and toss everything together"
      , "Cook for another minute until vegetables are tender-crisp"
      , "Garnish with sesame seeds and serve hot over rice" ]
  , source := RecipeSource.ai
  , created_at := "2024-10-08T09:15:00Z"
  , updated_at := "2024-10-08T09:15:00Z" }

/-- Initial contents of the in-memory store `RecipeService.MOCK_RECIPES`. -/
def initialMockRecipes : List RecipeDTO :=
  [seededRecipe1, seededRecipe2, seededRecipe3]

/-- Initial value of `RecipeService.mockRecipeCounter`. -/
def initialMockCounter : Nat := 4

theorem insertSorted_length (le : α → α → Bool) (x : α) (l : List α) :
    (insertSorted le x l).length = l.length + 1 := by
  induction l with
  | nil => rfl
  | cons y ys ih =>
    simp only [insertSorted]
    split <;> simp [ih]

theorem sortBy_length (le : α → α → Bool) (l : List α) :
    (sortBy le l).length = l.length := by
  induction l with
  | nil => rfl
  | cons x xs ih => simp [sortBy, insertSorted_length, ih]

theorem findIdx_split (p : α → Bool) (pre post : List α) (x : α)
    (hpre : ∀ y ∈ pre, p y = false) (hx : p x = true) :
    (pre ++ x :: post).findIdx p = pre.length := by
  rw [List.findIdx_append, List.findIdx_eq_length.mpr hpre]
  simp [List.findIdx_cons, hx]

theorem recipeMatches_false_of_other_owner (state : List RecipeDTO)
    (id ownerA principalB : String) (hB : principalB ≠ ownerA)
    (huniq : ∀ r' ∈ state, r'.id = id → r'.user_id = ownerA) :
    ∀ x ∈ state, recipeMatches id principalB x = false := by
  intro x hxmem
  unfold recipeMatches
  rcases Bool.eq_false_or_eq_true (x.id == id) with h | h
  · have hxid : x.id = id := by simpa using h
    have hA := huniq x hxmem hxid
    have hu : (x.user_id == principalB) = false := by
      rw [hA]
      simp
      exact fun hh => hB hh.symm
    simp [hu]
  · simp [h]

/-- C1.  Ownership isolation: a recipe stored under owner `ownerA` is
invisible to any other principal `principalB` — `getRecipeById` returns
`null`, `updateRecipe` returns `null`, `deleteRecipe` returns `false`,
and none of the three calls changes the store.  The `huniq` hypothesis
states that every stored row carrying this id belongs to `ownerA`
(identifiers are unique by construction, so this holds in every
reachable store). -/
theorem ownership_isolation (state : List RecipeDTO) (id ownerA principalB : String)
    (r : RecipeDTO) (_hmem : r ∈ state) (_hid : r.id = id) (_hown : r.user_id = ownerA)
    (hB : principalB ≠ ownerA)
    (huniq : ∀ r' ∈ state, r'.id = id → r'.user_id = ownerA)
    (cmd : UpdateRecipeCommand) (now : String) :
    getRecipeById state id principalB = none
    ∧ updateRecipe state id principalB cmd now = (none, state)
    ∧ deleteRecipe state id principalB = (false, state) := by
  have hall := recipeMatches_false_of_other_owner state id ownerA principalB hB huniq
  have hidx : state.findIdx (recipeMatches id principalB) = state.length :=
    List.findIdx_eq_length.mpr hall
  refine ⟨?_, ?_, ?_⟩
  · unfold getRecipeById
    exact List.find?_eq_none.mpr (fun x hx => by simp [hall x hx])
  · unfold updateRecipe
    rw [hidx]
    simp
  · unfold deleteRecipe
    rw [hidx]
    simp

/-- Closed instantiation of `ownership_isolation` at a concrete store. -/
theorem ownership_isolation_witness :
    getRecipeById initialMockRecipes "550e8400-e29b-41d4-a716-446655440001" "intruder" = none
    ∧ updateRecipe initialMockRecipes "550e8400-e29b-41d4-a716-446655440001" "intruder"
        { title := some "stolen", ingredients := none, preparation_steps := none }
        "2024-12-01T00:00:00Z" = (none, initialMockRecipes)
    ∧ deleteRecipe initialMockRecipes "550e8400-e29b-41d4-a716-446655440001" "intruder"
        = (false, initialMockRecipes) :=
  ownership_isolation initialMockRecipes "550e8400-e29b-41d4-a716-446655440001"
    DEFAULT_USER_ID "intruder" seededRecipe1 (by decide) (by decide) (by decide)
    (by decide) (by decide)
    { title := some "stolen", ingredients := none, preparation_steps := none }
    "2024-12-01T00:00:00Z"

/-- C7.  Idempotence of `deleteRecipe`: when exactly one stored row
matches `(id, uid)` the first call returns `true` and removes it, the
second call on the resulting store returns `false` and is a no-op (it
does not raise), and on any store with no matching row the call returns
`false` and leaves the store unchanged. -/
theorem deleteRecipe_idempotent (pre post : List RecipeDTO) (x : RecipeDTO) (id uid : String)
    (hx : recipeMatches id uid x = true)
    (hpre : ∀ y ∈ pre, recipeMatches id uid y = false)
    (hpost : ∀ y ∈ post, recipeMatches id uid y = false) :
    deleteRecipe (pre ++ x :: post) id uid = (true, pre ++ post)
    ∧ deleteRecipe (pre ++ post) id uid = (false, pre ++ post)
    ∧ ∀ s : List RecipeDTO, (∀ y ∈ s, recipeMatches id uid y = false) →
        deleteRecipe s id uid = (false, s) := by
  have gen : ∀ s : List RecipeDTO, (∀ y ∈ s, recipeMatches id uid y = false) →
      deleteRecipe s id uid = (false, s) := by
    intro s hs
    unfold deleteRecipe
    rw [List.findIdx_eq_length.mpr hs]
    simp
  refine ⟨?_, ?_, gen⟩
  · unfold deleteRecipe
    rw [findIdx_split _ _ _ _ hpre hx]
    have hlt : pre.length < (pre ++ x :: post).length := by simp
    rw [if_pos hlt, List.eraseIdx_append_of_length_le (Nat.le_refl _)]
    simp
  · exact gen (pre ++ post) (by
      intro y hy
      rcases List.mem_append.mp hy with h | h
      · exact hpre y h
      · exact hpost y h)

/-- Closed instantiation of `deleteRecipe_idempotent` at a concrete store. -/
theorem deleteRecipe_idempotent_witness :
    deleteRecipe ([seededRecipe1] ++ seededRecipe2 :: [seededRecipe3])
        "550e8400-e29b-41d4-a716-446655440002" DEFAULT_USER_ID
      = (true, [seededRecipe1] ++ [seededRecipe3])
    ∧ deleteRecipe ([seededRecipe1] ++ [seededRecipe3])
        "550e8400-e29b-41d4-a716-446655440002" DEFAULT_USER_ID
      = (false, [seededRecipe1] ++ [seededRecipe3])
    ∧ ∀ s : List RecipeDTO,
        (∀ y ∈ s, recipeMatches "550e8400-e29b-41d4-a716-446655440002" DEFAULT_USER_ID y = false) →
        deleteRecipe s "550e8400-e29b-41d4-a716-446655440002" DEFAULT_USER_ID = (false, s) :=
  deleteRecipe_idempotent [seededRecipe1] [seededRecipe3] seededRecipe2
    "550e8400-e29b-41d4-a716-446655440002" DEFAULT_USER_ID
    (by decide) (by decide) (by decide)

/-- C5.  Frame property of `updateRecipe`: updating with a nonempty
proper subset of the three mutable fields rewrites exactly the provided
fields, leaves `id`, `user_id`, `source`, `created_at` and every
unprovided mutable field bytewise unchanged, stamps `updated_at` with the
request clock, and — whenever the request clock reads later than the
stored `updated_at`, as a monotone wall clock does — strictly advances
`updated_at`.  The store decomposition `pre ++ r :: post` with no match
in `pre` pins `r` as the row `findIndex` locates. -/
theorem updateRecipe_frame (pre post : List RecipeDTO) (r : RecipeDTO) (id uid : String)
    (cmd : UpdateRecipeCommand) (now : String)
    (hr : recipeMatches id uid r = true)
    (hpre : ∀ y ∈ pre, recipeMatches id uid y = false)
    (_hprovided : cmd.title ≠ none ∨ cmd.ingredients ≠ none ∨ cmd.preparation_steps ≠ none)
    (_hproper : cmd.title = none ∨ cmd.ingredients = none ∨ cmd.preparation_steps = none)
    (hclock : jsStrLT r.updated_at now = true) :
    ∃ r', updateRecipe (pre ++ r :: post) id uid cmd now = (some r', pre ++ r' :: post)
      ∧ r'.id = r.id ∧ r'.user_id = r.user_id ∧ r'.source = r.source
      ∧ r'.created_at = r.created_at
      ∧ (cmd.title = none → r'.title = r.title)
      ∧ (cmd.ingredients = none → r'.ingredients = r.ingredients)
      ∧ (cmd.preparation_steps = none → r'.preparation_steps = r.preparation_steps)
      ∧ r'.updated_at = now
      ∧ jsStrLT r.updated_at r'.updated_at = true := by
  have hidx : (pre ++ r :: post).findIdx (recipeMatches id uid) = pre.length :=
    findIdx_split _ _ _ _ hpre hr
  have hlt : pre.length < (pre ++ r :: post).length := by simp
  have hget : (pre ++ r :: post).get ⟨pre.length, hlt⟩ = r := by
    have h := @List.getElem_append_right RecipeDTO pre (r :: post) pre.length (Nat.le_refl _) hlt
    simpa using h
  refine ⟨{ r with
      title := cmd.title.getD r.title
    , ingredients := cmd.ingredients.getD r.ingredients
    , preparation_steps := cmd.preparation_steps.getD r.preparation_steps
    , updated_at := now }, ?_, rfl, rfl, rfl, rfl, ?_, ?_, ?_, rfl, hclock⟩
  · unfold updateRecipe
    rw [hidx, dif_pos hlt]
    simp only [hget]
    rw [List.set_append_right _ _ (Nat.le_refl _)]
    simp
  · intro h; simp [h]
  · intro h; simp [h]
  · intro h; simp [h]

/-- Closed instantiation of `updateRecipe_frame` at a concrete store. -/
theorem updateRecipe_frame_witness :
    ∃ r', updateRecipe ([seededRecipe1] ++ seededRecipe2 :: [seededRecipe3])
        "550e8400-e29b-41d4-a716-446655440002" DEFAULT_USER_ID
        { title := some "Renamed Salad", ingredients := none, preparation_steps := none }
        "2024-12-01T00:00:00Z"
      = (some r', [seededRecipe1] ++ r' :: [seededRecipe3])
      ∧ r'.id = seededRecipe2.id ∧ r'.user_id = seededRecipe2.user_id
      ∧ r'.source = seededRecipe2.source
      ∧ r'.created_at = seededRecipe2.created_at
      ∧ (some "Renamed Salad" = (none : Option String) → r'.title = seededRecipe2.title)
      ∧ ((none : Option (List String)) = none → r'.ingredients = seededRecipe2.ingredients)
      ∧ ((none : Option (List String)) = none → r'.preparation_steps = seededRecipe2.preparation_steps)
      ∧ r'.updated_at = "2024-12-01T00:00:00Z"
      ∧ jsStrLT seededRecipe2.updated_at r'.updated_at = true :=
  updateRecipe_frame [seededRecipe1] [seededRecipe3] seededRecipe2
    "550e8400-e29b-41d4-a716-446655440002" DEFAULT_USER_ID
    { title := some "Renamed Salad", ingredients := none, preparation_steps := none }
    "2024-12-01T00:00:00Z" (by decide) (by decide)
    (Or.inl (by decide)) (Or.inr (Or.inl rfl)) (by decide)

/-- C6.  Round trip of `createRecipe` and `getRecipeById`: creating a
recipe and immediately fetching the returned id as the same owner yields
exactly the created row, whose `title`, `ingredients`,
`preparation_steps` and `source` are the command's, whose owner is the
requesting user, and whose two timestamps coincide (both are the request
clock).  Freshness of the generated id in the current store (guaranteed
by the strictly increasing counter) is the `hfresh` hypothesis. -/
theorem create_then_get (state : List RecipeDTO) (counter : Nat) (cmd : CreateRecipeCommand)
    (uid now : String)
    (hfresh : ∀ x ∈ state, recipeMatches (mockIdOfCounter counter) uid x = false) :
    ∃ r stateNew,
      createRecipe state counter cmd uid now = (r, stateNew, counter + 1)
      ∧ getRecipeById stateNew r.id uid = some r
      ∧ r.title = cmd.title ∧ r.ingredients = cmd.ingredients
      ∧ r.preparation_steps = cmd.preparation_steps ∧ r.source = cmd.source
      ∧ r.user_id = uid ∧ r.created_at = r.updated_at := by
  refine ⟨_, _, rfl, ?_, rfl, rfl, rfl, rfl, rfl, rfl⟩
  unfold getRecipeById
  rw [List.find?_append]
  rw [List.find?_eq_none.mpr (fun x hx => by simp [hfresh x hx])]
  rw [Option.none_or]
  apply List.find?_cons_of_pos
  simp [recipeMatches]

/-- Closed instantiation of `create_then_get` at the seeded store. -/
theorem create_then_get_witness :
    ∃ r stateNew,
      createRecipe initialMockRecipes initialMockCounter
          { title := "Omelette", ingredients := ["3 eggs"], preparation_steps := ["Beat", "Fry"]
          , source := RecipeSource.manual }
          DEFAULT_USER_ID "2024-12-01T00:00:00Z"
        = (r, stateNew, initialMockCounter + 1)
      ∧ getRecipeById stateNew r.id DEFAULT_USER_ID = some r
      ∧ r.title = "Omelette" ∧ r.ingredients = ["3 eggs"]
      ∧ r.preparation_steps = ["Beat", "Fry"] ∧ r.source = RecipeSource.manual
      ∧ r.user_id = DEFAULT_USER_ID ∧ r.created_at = r.updated_at :=
  create_then_get initialMockRecipes initialMockCounter
    { title := "Omelette", ingredients := ["3 eggs"], preparation_steps := ["Beat", "Fry"]
    , source := RecipeSource.manual }
    DEFAULT_USER_ID "2024-12-01T00:00:00Z" (by decide)

theorem firstAvoidWarning_isSome_iff (lineLower : String) (ts : List String) :
    (firstAvoidWarning lineLower ts).isSome = true
      ↔ ∃ t ∈ ts, strIncludes lineLower t = true := by
  induction ts with
  | nil => simp [firstAvoidWarning]
  | cons t rest ih =>
    simp only [firstAvoidWarning]
    by_cases h : strIncludes lineLower t = true
    · simp [h]
    · simp only [Bool.not_eq_true] at h
      simp [h, ih]

theorem checkIngredientsLoop_eq_filterMap (avoid : List String) (l : List String) :
    checkIngredientsLoop avoid l
      = l.filterMap (fun line => firstAvoidWarning (jsToLower line) avoid) := by
  induction l with
  | nil => rfl
  | cons x xs ih =>
    simp only [checkIngredientsLoop, List.filterMap_cons]
    cases h : firstAvoidWarning (jsToLower x) avoid <;> simp [h, ih]

theorem filterMap_firstAvoid_nil (ings : List String) :
    ings.filterMap (fun line => firstAvoidWarning (jsToLower line) []) = [] := by
  induction ings with
  | nil => rfl
  | cons x xs ih => simp [List.filterMap_cons, firstAvoidWarning, ih]

/-- C2 (amended).  The conflict checker emits at most one warning per
ingredient line: each line contributes the warning of the first avoided
term (in avoidance-list order) contained in it, or nothing.  A distinct
avoided term therefore produces its own warning exactly when it is the
first match of some line — matches are not deduplicated across lines or
across terms that are first matches of different lines — but an avoided
term whose every match is preceded, within the same line, by an earlier
matching term produces no warning.  Formally the checker equals a
per-line `filterMap` of the first-match function, and emits at most one
warning per line. -/
theorem conflict_warnings_per_line (ings : List String) (profile : ProfileDTO) :
    checkIngredientsAgainstProfile ings profile
      = ings.filterMap (fun line =>
          firstAvoidWarning (jsToLower line)
            ((profile.ingredients_to_avoid.getD []).map jsToLower))
    ∧ (checkIngredientsAgainstProfile ings profile).length ≤ ings.length := by
  have key : checkIngredientsAgainstProfile ings profile
      = ings.filterMap (fun line =>
          firstAvoidWarning (jsToLower line)
            ((profile.ingredients_to_avoid.getD []).map jsToLower)) := by
    unfold checkIngredientsAgainstProfile
    cases h : profile.ingredients_to_avoid with
    | none =>
      simp [filterMap_firstAvoid_nil]
    | some avoid =>
      by_cases hlen : avoid.length = 0
      · have : avoid = [] := List.length_eq_zero.mp hlen
        subst this
        simp [filterMap_firstAvoid_nil]
      · simp only [if_neg hlen, Option.getD_some]
        exact checkIngredientsLoop_eq_filterMap _ _
  exact ⟨key, by rw [key]; exact List.length_filterMap_le _ _⟩

/-- C2 counterexample: with avoidance list `["a", "b"]` and the single
ingredient line `"ab"`, the avoided term `"b"` matches the line as a
substring, yet the checker's output contains only the warning for
`"a"` — the inner loop breaks after the first matching term of the
line — refuting the claim that every distinct avoided term matching
anywhere in the ingredient list produces its own warning. -/
theorem conflict_checker_break_counterexample :
    strIncludes (jsToLower "ab") (jsToLower "b") = true
    ∧ checkIngredientsAgainstProfile ["ab"]
        { user_id := "u", ingredients_to_avoid := some ["a", "b"] }
      = [mkAvoidWarning "a"] := by
  exact ⟨by decide, by decide⟩

/-- C8.  Conflict-checker matching is case-insensitive substring
containment: a line is flagged (its first-match function returns a
warning) iff the lowercased line contains some lowercased avoided term
as a substring; in particular the avoided term `"nut"` flags the line
`"2 tbsp peanut butter"` with exactly one warning referencing `"nut"`;
and an empty (or absent) avoidance list yields no warnings for any
ingredient list. -/
theorem conflict_matching_is_substring (line : String) (avoid : List String)
    (ings : List String) (u : String) :
    ((firstAvoidWarning (jsToLower line) (avoid.map jsToLower)).isSome = true
        ↔ ∃ t ∈ avoid, strIncludes (jsToLower line) (jsToLower t) = true)
    ∧ checkIngredientsAgainstProfile ["2 tbsp peanut butter"]
        { user_id := u, ingredients_to_avoid := some ["nut"] } = [mkAvoidWarning "nut"]
    ∧ checkIngredientsAgainstProfile ings { user_id := u, ingredients_to_avoid := some [] } = []
    ∧ checkIngredientsAgainstProfile ings { user_id := u, ingredients_to_avoid := none } = [] := by
  refine ⟨?_, by rfl, ?_, rfl⟩
  · rw [firstAvoidWarning_isSome_iff]
    constructor
    · rintro ⟨t, ht, hst⟩
      rcases List.mem_map.mp ht with ⟨a, ha, rfl⟩
      exact ⟨a, ha, hst⟩
    · rintro ⟨a, ha, hst⟩
      exact ⟨jsToLower a, List.mem_map.mpr ⟨a, ha, rfl⟩, hst⟩
  · unfold checkIngredientsAgainstProfile
    simp

/-- C3.  Sanitisation before dispatch: `sanitizeIngredients` maps each
element through trim, then truncation to at most 100 characters, then
removal of every character outside the allow-list (word characters,
white space, comma, period, hyphen) — so each output element has length
at most 100 and only allow-listed characters — and the generate flow
dispatches exactly the sanitised list to the generation service, for
every input, with no exception for short inputs. -/
theorem sanitize_before_dispatch (ings : List String) (profile : Option ProfileDTO) (s : String) :
    sanitizeIngredients ings
      = ings.map (fun i => String.mk (((jsTrim i).data.take 100).filter isAllowedChar))
    ∧ (sanitizeOne s).length ≤ 100
    ∧ (∀ c ∈ (sanitizeOne s).data, isAllowedChar c = true)
    ∧ (generateRecipeWithWarnings ings profile).recipe
        = AIService.generateRecipe (sanitizeIngredients ings) := by
  refine ⟨rfl, ?_, ?_, rfl⟩
  · show (((jsTrim s).data.take 100).filter isAllowedChar).length ≤ 100
    exact Nat.le_trans (List.length_filter_le _ _)
      (by rw [List.length_take]; exact Nat.min_le_left _ _)
  · intro c hc
    exact List.of_mem_filter hc

/-- C9.  Shape of sanitisation: the output list has exactly the length
and order of the input (element-wise map); an element made only of
disallowed characters sanitises to the empty string; and the generate
flow hands the sanitised list — empty strings included — to the
generation service with no re-validation for non-emptiness. -/
theorem sanitize_keeps_shape (ings : List String) (profile : Option ProfileDTO) :
    (sanitizeIngredients ings).length = ings.length
    ∧ sanitizeOne "@#$%" = ""
    ∧ (generateRecipeWithWarnings ings profile).recipe
        = AIService.generateRecipe (sanitizeIngredients ings)
    ∧ (generateRecipeWithWarnings ("@#$%" :: ings) profile).recipe
        = AIService.generateRecipe ("" :: sanitizeIngredients ings) := by
  refine ⟨List.length_map _ _, by decide, rfl, rfl⟩

theorem ceil_mul_ge (t l : Nat) (hl : 0 < l) : t ≤ ((t + l - 1) / l) * l := by
  rcases Nat.eq_zero_or_pos t with ht | ht
  · simp [ht]
  · have h : t + l - 1 < (t + l - 1) / l * l + l := Nat.lt_div_mul_add hl
    have h2 : (t - 1) + l < (t + l - 1) / l * l + l :=
      Nat.lt_of_le_of_lt (Nat.le_of_eq (by omega)) h
    exact Nat.le_of_pred_lt (Nat.lt_of_add_lt_add_right h2)

theorem ceil_le_of_le_mul (t l m : Nat) (hl : 0 < l) (h : t ≤ m * l) :
    (t + l - 1) / l ≤ m := by
  rw [Nat.div_le_iff_le_mul_add_pred hl]
  calc t + l - 1 ≤ m * l + l - 1 := Nat.sub_le_sub_right (Nat.add_le_add_right h l) 1
    _ = m * l + (l - 1) := Nat.add_sub_assoc hl (m * l)
    _ = l * m + (l - 1) := by rw [Nat.mul_comm]

/-- C4.  List-request contract: a `limit` above the hard ceiling 100 is
rejected by the validation schema with an error (never clamped); omitted
parameters default to page 1, limit 20, sort `created_at`, order
`desc`; and the pagination metadata of `getRecipes` satisfies
`total_items` = size of the collection after the owner filter and the
optional source equality filter, `total_pages` = the ceiling of
`total_items / limit` (characterised as the least `m` with
`total_items ≤ m * limit`), `has_next` = (`page < total_pages`) and
`has_previous` = (`page > 1`). -/
theorem list_pagination_contract
    (q : RawRecipeQuery) (n : Int) (state : List RecipeDTO) (uid : String)
    (params : RecipeQueryParams) (page limit : Nat)
    (hq : q.limit = some n) (hn : 100 < n)
    (hpage : params.page = some page) (hlimit : params.limit = some limit)
    (hl : 0 < limit) :
    (∃ e, recipeQuerySchema q = Except.error e)
    ∧ recipeQuerySchema { page := none, limit := none, sort := none, order := none, source := none }
        = Except.ok { page := some 1, limit := some 20, sort := some "created_at"
                    , order := some SortOrder.desc, source := none }
    ∧ (getRecipes state uid params).pagination.total_items
        = (match params.source with
           | some s => (state.filter (fun r : RecipeDTO => r.user_id == uid)).filter
               (fun r : RecipeDTO => r.source == s)
           | none => state.filter (fun r : RecipeDTO => r.user_id == uid)).length
    ∧ (getRecipes state uid params).pagination.total_items
        ≤ (getRecipes state uid params).pagination.total_pages * limit
    ∧ (∀ m, (getRecipes state uid params).pagination.total_items ≤ m * limit →
        (getRecipes state uid params).pagination.total_pages ≤ m)
    ∧ (getRecipes state uid params).pagination.has_next
        = decide (page < (getRecipes state uid params).pagination.total_pages)
    ∧ (getRecipes state uid params).pagination.has_previous = decide (1 < page) := by
  have h1 : ((0:Int) < n) = True := eq_true (by omega)
  have h2 : (n ≤ (100:Int)) = False := eq_false (by omega)
  refine ⟨?_, rfl, ?_, ?_, ?_, ?_, ?_⟩
  · unfold recipeQuerySchema
    rw [hq]
    cases hp : q.page with
    | none =>
      refine ⟨"limit must be at most 100", ?_⟩
      simp [h1, h2, Bind.bind, Except.bind, Pure.pure, Except.pure]
    | some p =>
      by_cases hpp : (0:Int) < p
      · refine ⟨"limit must be at most 100", ?_⟩
        simp [hpp, h1, h2, Bind.bind, Except.bind, Pure.pure, Except.pure]
      · refine ⟨"page must be a positive integer", ?_⟩
        simp [hpp, Bind.bind, Except.bind, Pure.pure, Except.pure]
  · simp only [getRecipes, hpage, hlimit, Option.getD_some]
  · simp only [getRecipes, hpage, hlimit, Option.getD_some]
    exact ceil_mul_ge _ _ hl
  · intro m hm
    simp only [getRecipes, hpage, hlimit, Option.getD_some] at hm ⊢
    exact ceil_le_of_le_mul _ _ _ hl hm
  · simp [getRecipes, hpage, hlimit]
  · simp [getRecipes, hpage, hlimit]

/-- Closed instantiation of `list_pagination_contract`. -/
theorem list_pagination_contract_witness :
    (∃ e, recipeQuerySchema
        { page := none, limit := some 101, sort := none, order := none, source := none }
      = Except.error e)
    ∧ (getRecipes initialMockRecipes DEFAULT_USER_ID
        { page := some 1, limit := some 2, sort := none, order := none, source := none
        }).pagination.has_previous = decide (1 < 1) := by
  obtain ⟨e1, _, _, _, _, _, h7⟩ := list_pagination_contract
    { page := none, limit := some 101, sort := none, order := none, source := none } 101
    initialMockRecipes DEFAULT_USER_ID
    { page := some 1, limit := some 2, sort := none, order := none, source := none } 1 2
    rfl (by decide) rfl rfl (by decide)
  exact ⟨e1, h7⟩

/-- C10.  A validated page past the last page of the (filtered)
collection does not fail: `getRecipes` returns an empty `recipes` array
with `has_next = false`, while `has_previous` is still `true` whenever
`page > 1`. -/
theorem drop_page_beyond (l : List RecipeDTO) (le : RecipeDTO → RecipeDTO → Bool)
    (page limit : Nat) (hl : 0 < limit)
    (hb : (l.length + limit - 1) / limit < page) :
    ((sortBy le l).drop ((page - 1) * limit)).take limit = [] := by
  have hq := ceil_mul_ge l.length limit hl
  have hq2 : (l.length + limit - 1) / limit ≤ page - 1 := Nat.le_sub_one_of_lt hb
  have hq3 := Nat.mul_le_mul_right limit hq2
  have hlen : (sortBy le l).length ≤ (page - 1) * limit := by
    rw [sortBy_length]
    exact Nat.le_trans hq hq3
  rw [List.drop_eq_nil_of_le hlen]
  exact List.take_nil

theorem getRecipes_page_beyond (state : List RecipeDTO) (uid : String)
    (params : RecipeQueryParams) (page limit : Nat)
    (hpage : params.page = some page) (hlimit : params.limit = some limit)
    (hl : 0 < limit)
    (hbeyond : (getRecipes state uid params).pagination.total_pages < page) :
    (getRecipes state uid params).recipes = []
    ∧ (getRecipes state uid params).pagination.has_next = false
    ∧ (1 < page → (getRecipes state uid params).pagination.has_previous = true) := by
  simp only [getRecipes, hpage, hlimit, Option.getD_some] at hbeyond ⊢
  refine ⟨?_, ?_, ?_⟩
  · exact drop_page_beyond _ _ _ _ hl hbeyond
  · exact decide_eq_false (Nat.lt_asymm hbeyond)
  · intro h
    exact decide_eq_true h

/-- Closed instantiation of `getRecipes_page_beyond` at the seeded store:
three recipes, limit 2, requested page 5 (total pages 2). -/
theorem getRecipes_page_beyond_witness :
    (getRecipes initialMockRecipes DEFAULT_USER_ID
        { page := some 5, limit := some 2, sort := none, order := none, source := none }).recipes = []
    ∧ (getRecipes initialMockRecipes DEFAULT_USER_ID
        { page := some 5, limit := some 2, sort := none, order := none, source := none
        }).pagination.has_next = false
    ∧ (1 < 5 → (getRecipes initialMockRecipes DEFAULT_USER_ID
        { page := some 5, limit := some 2, sort := none, order := none, source := none
        }).pagination.has_previous = true) :=
  getRecipes_page_beyond initialMockRecipes DEFAULT_USER_ID
    { page := some 5, limit := some 2, sort := none, order := none, source := none } 5 2
    rfl rfl (by decide) (by decide)
